import Mathlib

/-!
Verification model of the signal-combination core of the Ashare repository.

The embedding covers, per bar:
* `ashare/strategies/trend_strategy.py`: `_calc_hard_gate`, `_calc_base_signals`
  and `_combine_signals` (initial signal, quality score, Wyckoff SOW override,
  environment-adaptive quality gate, position sizing, reason string);
* `ashare/strategies/ma_wyckoff_model.py`: `MAWyckoffStrategy.run` (rolling
  statistics, long-term structure, phase assignment, events, action selection).

Numeric columns are `Option ℚ`: `none` models a pandas `NaN` and every
comparison against `none` is `false`, exactly as comparisons with `NaN`
evaluate to `False` in pandas boolean masks.  The EFI, EFI z-score and the
MACD divergence flags are produced by `ashare/indicators/wyckoff.py`, a module
the strategy code consumes as pre-computed dataframe columns; they enter the
model as per-bar inputs.
-/

namespace Ashare

/-- Comparison of two possibly-missing values; a missing side yields `false`,
mirroring pandas comparisons with NaN. -/
def oLT (a b : Option ℚ) : Bool :=
  match a, b with
  | some x, some y => decide (x < y)
  | _, _ => false

/-- NaN-aware less-or-equal. -/
def oLE (a b : Option ℚ) : Bool :=
  match a, b with
  | some x, some y => decide (x ≤ y)
  | _, _ => false

/-- NaN-aware greater-than. -/
def oGT (a b : Option ℚ) : Bool :=
  match a, b with
  | some x, some y => decide (y < x)
  | _, _ => false

/-- NaN-aware greater-or-equal. -/
def oGE (a b : Option ℚ) : Bool :=
  match a, b with
  | some x, some y => decide (y ≤ x)
  | _, _ => false

/-- NaN-propagating binary arithmetic. -/
def oMap2 (f : ℚ → ℚ → ℚ) (a b : Option ℚ) : Option ℚ :=
  match a, b with
  | some x, some y => some (f x y)
  | _, _ => none

/-- Division whose denominator has been passed through
`.replace(0, np.nan)` in the source: a missing operand or a zero denominator
gives NaN. -/
def safeDiv (a b : Option ℚ) : Option ℚ :=
  match a, b with
  | some x, some y => if y = 0 then none else some (x / y)
  | _, _ => none

/-- Pandas `Series.clip(lo, hi)` on a scalar. -/
def clipQ (x lo hi : ℚ) : ℚ := min (max x lo) hi

/-- Character-list version of "starts with". -/
def listPrefixTest : List Char → List Char → Bool
  | [], _ => true
  | _ :: _, [] => false
  | a :: as, b :: bs => a = b && listPrefixTest as bs

/-- Whether `needle` occurs contiguously inside the second list. -/
def listContains (needle : List Char) : List Char → Bool
  | [] => listPrefixTest needle []
  | h :: t => listPrefixTest needle (h :: t) || listContains needle t

/-- Substring test used to state the reason-accumulation property. -/
def strContains (hay needle : String) : Bool :=
  listContains needle.data hay.data

/-- Wyckoff phase labels written to the `wyckoff_phase` column. -/
inductive Phase where
  | NONE
  | ACCUMULATION
  | DISTRIBUTION
  | TREND_UP
  | TREND_DOWN
  deriving DecidableEq

/-- Wyckoff event labels written to the `wyckoff_event` column; `NONE`
models the empty string. -/
inductive WEvent where
  | NONE
  | SPRING
  | UPTHRUST
  | SOS
  | SOW
  deriving DecidableEq

/-- Values of the `signal` column produced by `_combine_signals`. -/
inductive Signal where
  | BUY
  | BUY_CONFIRM
  | SELL
  | REDUCE
  | HOLD
  | WAIT
  deriving DecidableEq

/-- Actions of the 4-level `MAWyckoffStrategy` model. -/
inductive WAction where
  | BUY_STRONG
  | BUY_LIGHT
  | REDUCE
  | SELL
  | HOLD
  deriving DecidableEq

/-- Strategy parameters of `TrendStrategy` with the defaults the code reads
from `self.params.get`. -/
structure TrendParams where
  min_daily_amount : ℚ := 0
  pullback_atr_mult : ℚ := 3/5
  stop_buffer_atr : ℚ := 3/10
  stagnation_vol_ratio_threshold : ℚ := 2
  stagnation_atr_mult : ℚ := 1/5
  stagnation_bias_atr_mult : ℚ := 5/2
  wyckoff_score_weight : ℚ := 1/2
  engulf_score_weight : ℚ := 3/10
  quality_stop_threshold : ℚ := -3
  max_stock_price : ℚ := 999999

/-- The default parameter set. -/
def defaultParams : TrendParams := {}

/-- Price/volume/structure inputs of one bar, as seen by `_calc_hard_gate`,
`_calc_base_signals` and the structural part of `_combine_signals`.
`prev_ma5`, `prev_ma20`, `vol_ma5`, `pct_chg` and `rolling_high_20` are the
per-code shifted/rolling columns prepared by `_prepare_data` and
`_calc_base_signals`. -/
structure BarData where
  close : Option ℚ := none
  ma5 : Option ℚ := none
  ma20 : Option ℚ := none
  ma60 : Option ℚ := none
  ma250 : Option ℚ := none
  prev_ma5 : Option ℚ := none
  prev_ma20 : Option ℚ := none
  atr14 : Option ℚ := none
  volume : Option ℚ := none
  vol_ma5 : Option ℚ := none
  vol_ratio : Option ℚ := none
  pct_chg : Option ℚ := none
  rolling_high_20 : Option ℚ := none
  amount : Option ℚ := none
  one_word_limit_up : Bool := false
  env_gate_action : Option String := none
  wyckoff_phase : Phase := Phase.NONE
  wyckoff_event : WEvent := WEvent.NONE

/-- Quality-scoring inputs of one bar: the factor columns read only by the
quality score and the environment-adaptive threshold of `_combine_signals`. -/
structure QualityInputs where
  rotation_phase : Option String := none
  chip_score : Option ℚ := none
  wyckoff_score : Option ℚ := none
  engulf_score : Option ℚ := none
  rs_5d : Option ℚ := none
  index_ret : Option ℚ := none
  rsi14 : Option ℚ := none
  rps_50 : Option ℚ := none
  rps_120 : Option ℚ := none
  ret_20 : Option ℚ := none
  ret_50 : Option ℚ := none
  ret_120 : Option ℚ := none
  ma20_bias : Option ℚ := none
  index_ret_5d : Option ℚ := none

/-- Uppercasing of a string, character by character, as `.str.upper()` acts
on the ASCII action labels. -/
def toUpperStr (s : String) : String :=
  String.mk (s.data.map Char.toUpper)

/-- Environment gate: `env_gate_action.fillna("").str.upper()` lies in
`{STOP, ALLOW_NONE}`. -/
def envGate (a : Option String) : Bool :=
  let s := toUpperStr (a.getD "")
  s = "STOP" || s = "ALLOW_NONE"

/-- Hard exclusion mask of `_calc_hard_gate`: missing close/ma5/ma20,
one-word limit-up, environment gate, or amount below the liquidity floor. -/
def hard_gate (p : TrendParams) (b : BarData) : Bool :=
  (b.close.isNone || b.ma5.isNone || b.ma20.isNone)
    || b.one_word_limit_up
    || envGate b.env_gate_action
    || (if 0 < p.min_daily_amount then
          b.amount.isNone || oLT b.amount (some p.min_daily_amount)
        else false)

/-- Trend filter: close and MA20 above MA250. -/
def trend_ok (b : BarData) : Bool :=
  oGT b.close b.ma250 && oGT b.ma20 b.ma250

/-- MA5 crosses above MA20 on this bar. -/
def cross_up (b : BarData) : Bool :=
  oGT b.ma5 b.ma20 && oLE b.prev_ma5 b.prev_ma20

/-- ATR is present and positive. -/
def atr_ok (b : BarData) : Bool :=
  match b.atr14 with
  | some a => decide (0 < a)
  | none => false

/-- Absolute distance of close to MA20. -/
def dist_to_ma20 (b : BarData) : Option ℚ :=
  oMap2 (fun c m => |c - m|) b.close b.ma20

/-- Golden-cross buy: trend filter and cross-up. -/
def buy_cross (b : BarData) : Bool :=
  trend_ok b && cross_up b

/-- Volume-spread filter of the pullback buy: volume below 1.05 times the
5-bar average volume. -/
def vol_vsa_ok (b : BarData) : Bool :=
  oLT b.volume (oMap2 (fun v m => v * m) b.vol_ma5 (some (21/20)))

/-- Pullback buy: trend filter, ATR available, close within
`pullback_atr_mult` ATRs of MA20, MA5 rising, no blow-off volume. -/
def buy_pullback (p : TrendParams) (b : BarData) : Bool :=
  trend_ok b && atr_ok b
    && oLE (dist_to_ma20 b) (oMap2 (fun m a => m * a) (some p.pullback_atr_mult) b.atr14)
    && oGT b.ma5 b.prev_ma5
    && vol_vsa_ok b

/-- Base buy signal. -/
def base_buy (p : TrendParams) (b : BarData) : Bool :=
  buy_cross b || buy_pullback p b

/-- ATR-buffered stop: close below MA20 minus the ATR buffer plus the
0.5 percent price floor. -/
def hard_stop (p : TrendParams) (b : BarData) : Bool :=
  atr_ok b
    && oLT b.close (oMap2 (fun m a => m - (p.stop_buffer_atr * a + m * (1/200))) b.ma20 b.atr14)

/-- Trailing stop: close more than 3 ATRs below the rolling 20-bar close high. -/
def trailing_stop (b : BarData) : Bool :=
  atr_ok b && oLT b.close (oMap2 (fun h a => h - 3 * a) b.rolling_high_20 b.atr14)

/-- MA5 crosses below MA20 on this bar. -/
def dead_cross (b : BarData) : Bool :=
  oLT b.ma5 b.ma20 && oGE b.prev_ma5 b.prev_ma20

/-- Stagnation: heavy volume, negligible price move, far from MA20. -/
def stagnation (p : TrendParams) (b : BarData) : Bool :=
  oGE b.vol_ratio (some p.stagnation_vol_ratio_threshold)
    && oLT (oMap2 (fun pc c => |pc| * c) b.pct_chg b.close)
        (oMap2 (fun m a => m * a) (some p.stagnation_atr_mult) b.atr14)
    && oGT (dist_to_ma20 b) (oMap2 (fun m a => m * a) (some p.stagnation_bias_atr_mult) b.atr14)

/-- Base sell signal. -/
def base_sell (p : TrendParams) (b : BarData) : Bool :=
  dead_cross b || stagnation p b || hard_stop p b || trailing_stop b

/-- Base reduce signal. -/
def base_reduce (p : TrendParams) (b : BarData) : Bool :=
  oLT b.ma5 b.ma20 && oLT b.close b.ma20 && !dead_cross b && !hard_stop p b

/-- Initial signal of `_combine_signals`: the first true mask of
hard gate, base sell, base reduce, base buy, else HOLD. -/
def initSignal (p : TrendParams) (b : BarData) : Signal :=
  if hard_gate p b then Signal.HOLD
  else if base_sell p b then Signal.SELL
  else if base_reduce p b then Signal.REDUCE
  else if base_buy p b then Signal.BUY
  else Signal.HOLD

/-- Reason column after the base stage: the default text, replaced by the
golden-cross text on bars with `base_buy and cross_up`. -/
def reasonBase (p : TrendParams) (b : BarData) : String :=
  if base_buy p b && cross_up b then "趋势金叉" else "观望"

/-- Sector-rotation factor before its weight: 2 for leader/leading, 1 for
improving, 0 otherwise, on the `fillna("neutral")` rotation phase. -/
def board_factor (q : QualityInputs) : ℚ :=
  let bp := q.rotation_phase.getD "neutral"
  if bp = "leader" || bp = "leading" then 2
  else if bp = "improving" then 1
  else 0

/-- Ownership-concentration factor at the 0.5 thresholds. -/
def chip_factor (q : QualityInputs) : ℚ :=
  let c := q.chip_score.getD 0
  if (1/2 : ℚ) ≤ c then 1 else if c ≤ -(1/2) then -1 else 0

/-- 5-bar relative-strength factor (NaN contributes 0). -/
def rs_factor (q : QualityInputs) : ℚ :=
  match q.rs_5d with
  | some v => if (1/20 : ℚ) < v then 3/2 else if 0 < v then 1/2 else -(1/2)
  | none => 0

/-- Resilience bonus: index down more than 0.5 percent while the bar is up. -/
def resilient_bonus (b : BarData) (q : QualityInputs) : ℚ :=
  if oLT q.index_ret (some (-(1/200))) && oGT b.pct_chg (some 0) then 1 else 0

/-- Distribution-phase penalty. -/
def dist_factor (b : BarData) : ℚ :=
  if b.wyckoff_phase = Phase.DISTRIBUTION then -3 else 0

/-- Accumulation-phase bonus. -/
def acc_factor (b : BarData) : ℚ :=
  if b.wyckoff_phase = Phase.ACCUMULATION then 1 else 0

/-- Trend-up-phase bonus. -/
def trend_up_factor (b : BarData) : ℚ :=
  if b.wyckoff_phase = Phase.TREND_UP then 1/2 else 0

/-- RSI band factor: above 75 scores -2, the 40 to 65 band scores 0.5. -/
def rsi_factor (q : QualityInputs) : ℚ :=
  match q.rsi14 with
  | some r => if 75 < r then -2 else if 40 ≤ r ∧ r ≤ 65 then 1/2 else 0
  | none => 0

/-- Whether the bar sits in the low-base band above the year line:
bias to MA250 strictly between 0 and 15 percent.  A zero or missing MA250
never qualifies, matching the infinity/NaN comparisons of the source. -/
def is_low_base (b : BarData) : Bool :=
  match b.close, b.ma250 with
  | some c, some m =>
      if m = 0 then false
      else decide ((c - m) / m < 3/20) && decide (0 < (c - m) / m)
  | _, _ => false

/-- Fast-improver test: RPS50 more than 10 points above RPS120. -/
def is_improving (q : QualityInputs) : Bool :=
  decide (q.rps_120.getD 0 + 10 < q.rps_50.getD 0)

/-- RPS tiering factor. -/
def rps_factor (b : BarData) (q : QualityInputs) : ℚ :=
  let r50 := q.rps_50.getD 0
  if 90 ≤ r50 then 2
  else if is_low_base b && is_improving q then 3/2
  else if is_low_base b then 1/2
  else if decide (r50 < 70) && !is_low_base b then -2
  else 0

/-- Momentum-acceleration bonus: strictly increasing positive normalized
return rates together with RPS50 above 80. -/
def acceleration_bonus (q : QualityInputs) : ℚ :=
  let vs := q.ret_20.getD 0 / 20
  let vm := q.ret_50.getD 0 / 50
  let vl := q.ret_120.getD 0 / 120
  if (vm < vs ∧ vl < vm ∧ 0 < vl) ∧ 80 < q.rps_50.getD 0 then 1 else 0

/-- Anti-chase penalty: MA20 bias above 10 percent. -/
def chase_penalty (q : QualityInputs) : ℚ :=
  if (1/10 : ℚ) < q.ma20_bias.getD 0 then -3 else 0

/-- Every quality term except the sector-rotation one, summed with the
weights of the source. -/
def nonBoardScore (p : TrendParams) (b : BarData) (q : QualityInputs) : ℚ :=
  chip_factor q + q.wyckoff_score.getD 0 * p.wyckoff_score_weight
    + q.engulf_score.getD 0 * p.engulf_score_weight
    + rs_factor q + resilient_bonus b q + dist_factor b + acc_factor b
    + trend_up_factor b + rsi_factor q + rps_factor b q
    + acceleration_bonus q + chase_penalty q

/-- The quality score: the weighted sum of `_combine_signals`, in which the
sector-rotation factor enters as `board_factor * 2.0`. -/
def quality_score (p : TrendParams) (b : BarData) (q : QualityInputs) : ℚ :=
  board_factor q * 2 + nonBoardScore p b q

/-- The Wyckoff hard override mask: DISTRIBUTION phase with a SOW event. -/
def is_sow (b : BarData) : Bool :=
  b.wyckoff_phase = Phase.DISTRIBUTION && b.wyckoff_event = WEvent.SOW

/-- Signal after the SOW hard override. -/
def signalAfterSow (p : TrendParams) (b : BarData) : Signal :=
  if is_sow b then Signal.SELL else initSignal p b

/-- Reason after the SOW hard override, which assigns (not appends) its text. -/
def reasonAfterSow (p : TrendParams) (b : BarData) : String :=
  if is_sow b then "Wyckoff派发确认: SOW破位" else reasonBase p b

/-- Environment-adaptive quality threshold: 0 when the trailing 5-bar index
return is strictly below -2 percent, else the configured default. -/
def dynamic_thresh (p : TrendParams) (q : QualityInputs) : ℚ :=
  match q.index_ret_5d with
  | some v => if v < -(1/50) then 0 else p.quality_stop_threshold
  | none => p.quality_stop_threshold

/-- The quality-gate mask: a BUY whose quality score is at or below the
active threshold. -/
def mask_stop (p : TrendParams) (b : BarData) (q : QualityInputs) : Bool :=
  signalAfterSow p b = Signal.BUY && decide (quality_score p b q ≤ dynamic_thresh p q)

/-- Final signal of `_combine_signals`. -/
def finalSignal (p : TrendParams) (b : BarData) (q : QualityInputs) : Signal :=
  if mask_stop p b q then Signal.WAIT else signalAfterSow p b

/-- Final reason string; the quality gate appends its marker. -/
def finalReason (p : TrendParams) (b : BarData) (q : QualityInputs) : String :=
  if mask_stop p b q then reasonAfterSow p b ++ "|质量分过低(环境自适应)"
  else reasonAfterSow p b

/-- Final capital fraction: the clipped linear map of the quality score on
BUY/BUY_CONFIRM bars, 0 otherwise. -/
def final_cap (p : TrendParams) (b : BarData) (q : QualityInputs) : ℚ :=
  if finalSignal p b q = Signal.BUY ∨ finalSignal p b q = Signal.BUY_CONFIRM then
    clipQ (1/2 + quality_score p b q * (1/10)) 0 (4/5)
  else 0

/-- One OHLCV bar consumed by `MAWyckoffStrategy.run`.  The `efi`, `efi_z`,
`bullish_divergence` and `bearish_divergence` fields are the columns computed
by the `WyckoffAnalyzer` indicator module, which `run` consumes as given. -/
structure WBar where
  open_ : ℚ := 0
  high : ℚ := 0
  low : ℚ := 0
  close : ℚ := 0
  volume : ℚ := 0
  atr14 : Option ℚ := none
  efi : Option ℚ := none
  efi_z : Option ℚ := none
  bullish_divergence : Bool := false
  bearish_divergence : Bool := false

/-- Window parameters of `MAWyckoffStrategy` with the constructor defaults. -/
structure WParams where
  ma_short : ℕ := 5
  ma_long : ℕ := 20
  confirmation_window : ℕ := 10
  long_ma_window : ℕ := 200
  long_slope_window : ℕ := 20
  structure_window : ℕ := 160
  box_len_min : ℕ := 80
  box_volatility_cap : ℚ := 1/4
  vol_confirm_window : ℕ := 60
  vol_contract_ratio : ℚ := 17/20
  vol_imbalance_threshold : ℚ := 6/5
  breakout_pct : ℚ := 1/100
  reclaim_tol : ℚ := 3/1000
  vol_spike_mult : ℚ := 13/10

/-- The default window set of `MAWyckoffStrategy.__init__`. -/
def defaultWParams : WParams := {}

/-- The last `min (i+1) w` values of the series up to index `i`. -/
def window (w : ℕ) (xs : List ℚ) (i : ℕ) : List ℚ :=
  (xs.take (i+1)).drop (i+1-w)

/-- Pandas `rolling(w, min_periods=mp).mean()` at row `i` over a series with
no missing values. -/
def rollingMean (w mp : ℕ) (xs : List ℚ) (i : ℕ) : Option ℚ :=
  if mp ≤ min (i+1) w ∧ i < xs.length then
    some ((window w xs i).sum / ((min (i+1) w : ℕ) : ℚ))
  else none

/-- Pandas `rolling(w, min_periods=mp).sum()` at row `i`. -/
def rollingSum (w mp : ℕ) (xs : List ℚ) (i : ℕ) : Option ℚ :=
  if mp ≤ min (i+1) w ∧ i < xs.length then some (window w xs i).sum else none

/-- Maximum of a list of rationals, `none` on the empty list. -/
def foldMax (xs : List ℚ) : Option ℚ :=
  match xs with
  | [] => none
  | h :: t => some (t.foldl max h)

/-- Minimum of a list of rationals, `none` on the empty list. -/
def foldMin (xs : List ℚ) : Option ℚ :=
  match xs with
  | [] => none
  | h :: t => some (t.foldl min h)

/-- Pandas `rolling(w, min_periods=mp).max()` at row `i`. -/
def rollingMax (w mp : ℕ) (xs : List ℚ) (i : ℕ) : Option ℚ :=
  if mp ≤ min (i+1) w ∧ i < xs.length then foldMax (window w xs i) else none

/-- Pandas `rolling(w, min_periods=mp).min()` at row `i`. -/
def rollingMin (w mp : ℕ) (xs : List ℚ) (i : ℕ) : Option ℚ :=
  if mp ≤ min (i+1) w ∧ i < xs.length then foldMin (window w xs i) else none

/-- Rolling any-true over the last `w` entries of a boolean series, defined
for rows with a full window: pandas `rolling(w).max() > 0` over a bool
column. -/
def rollingAny (w : ℕ) (xs : List Bool) (i : ℕ) : Bool :=
  decide (w ≤ i + 1) && decide (i < xs.length)
    && ((xs.take (i+1)).drop (i+1-w)).any id

/-- Close prices of the series. -/
def closes (s : List WBar) : List ℚ := s.map (fun b => b.close)

/-- High prices of the series. -/
def highs (s : List WBar) : List ℚ := s.map (fun b => b.high)

/-- Low prices of the series. -/
def lows (s : List WBar) : List ℚ := s.map (fun b => b.low)

/-- Volumes of the series. -/
def volumes (s : List WBar) : List ℚ := s.map (fun b => b.volume)

/-- Volume on up bars, zero elsewhere: `volume.where(close >= open, 0.0)`. -/
def vol_up_list (s : List WBar) : List ℚ :=
  s.map (fun b => if b.open_ ≤ b.close then b.volume else 0)

/-- Volume on down bars, zero elsewhere. -/
def vol_down_list (s : List WBar) : List ℚ :=
  s.map (fun b => if b.close < b.open_ then b.volume else 0)

/-- Close at row `i` (rows are only read at valid indices). -/
def closeAt (s : List WBar) (i : ℕ) : ℚ := (closes s).getD i 0

/-- High at row `i`. -/
def highAt (s : List WBar) (i : ℕ) : ℚ := (highs s).getD i 0

/-- Low at row `i`. -/
def lowAt (s : List WBar) (i : ℕ) : ℚ := (lows s).getD i 0

/-- Volume at row `i`. -/
def volumeAt (s : List WBar) (i : ℕ) : ℚ := (volumes s).getD i 0

/-- Short moving average (`ma_short` window) at row `i`. -/
def maShortAt (p : WParams) (s : List WBar) (i : ℕ) : Option ℚ :=
  rollingMean p.ma_short p.ma_short (closes s) i

/-- Long moving average (`ma_long` window) at row `i`. -/
def maLongAt (p : WParams) (s : List WBar) (i : ℕ) : Option ℚ :=
  rollingMean p.ma_long p.ma_long (closes s) i

/-- Long-term moving average (`long_ma_window`) at row `i`. -/
def maLongtermAt (p : WParams) (s : List WBar) (i : ℕ) : Option ℚ :=
  rollingMean p.long_ma_window p.long_ma_window (closes s) i

/-- The long-term MA shifted by `long_slope_window` rows. -/
def maLongShiftAt (p : WParams) (s : List WBar) (i : ℕ) : Option ℚ :=
  if p.long_slope_window ≤ i then maLongtermAt p s (i - p.long_slope_window) else none

/-- Long-term slope with the `replace(0, nan)` division guard. -/
def longMaSlopeAt (p : WParams) (s : List WBar) (i : ℕ) : Option ℚ :=
  safeDiv (oMap2 (fun a b => a - b) (maLongtermAt p s i) (maLongShiftAt p s i))
    (maLongShiftAt p s i)

/-- Long-term trend up: positive slope. -/
def longTrendUpAt (p : WParams) (s : List WBar) (i : ℕ) : Bool :=
  oGT (longMaSlopeAt p s i) (some 0)

/-- Long-term trend down: negative slope. -/
def longTrendDownAt (p : WParams) (s : List WBar) (i : ℕ) : Bool :=
  oLT (longMaSlopeAt p s i) (some 0)

/-- Rolling box high over `structure_window` highs with `box_len_min`
minimum periods. -/
def boxHighAt (p : WParams) (s : List WBar) (i : ℕ) : Option ℚ :=
  rollingMax p.structure_window p.box_len_min (highs s) i

/-- Rolling box low. -/
def boxLowAt (p : WParams) (s : List WBar) (i : ℕ) : Option ℚ :=
  rollingMin p.structure_window p.box_len_min (lows s) i

/-- Box range percentage with the `replace(0, nan)` guard on the box low. -/
def boxRangePctAt (p : WParams) (s : List WBar) (i : ℕ) : Option ℚ :=
  safeDiv (oMap2 (fun a b => a - b) (boxHighAt p s i) (boxLowAt p s i)) (boxLowAt p s i)

/-- Whether the box range is within the volatility cap. -/
def boxOkAt (p : WParams) (s : List WBar) (i : ℕ) : Bool :=
  oLE (boxRangePctAt p s i) (some p.box_volatility_cap)

/-- Rolling sum of up-bar volume (`vol_confirm_window`, min_periods 10). -/
def upSumAt (p : WParams) (s : List WBar) (i : ℕ) : Option ℚ :=
  rollingSum p.vol_confirm_window 10 (vol_up_list s) i

/-- Rolling sum of down-bar volume. -/
def downSumAt (p : WParams) (s : List WBar) (i : ℕ) : Option ℚ :=
  rollingSum p.vol_confirm_window 10 (vol_down_list s) i

/-- Down/up volume ratio with the `replace(0, nan)` guard on the up sum. -/
def downUpVolRatioAt (p : WParams) (s : List WBar) (i : ℕ) : Option ℚ :=
  safeDiv (downSumAt p s i) (upSumAt p s i)

/-- 20-bar average volume (min_periods 10). -/
def volShortAt (s : List WBar) (i : ℕ) : Option ℚ :=
  rollingMean 20 10 (volumes s) i

/-- Long average volume over `vol_confirm_window` (min_periods 20). -/
def volLongAt (p : WParams) (s : List WBar) (i : ℕ) : Option ℚ :=
  rollingMean p.vol_confirm_window 20 (volumes s) i

/-- Volume contraction: short average at most `vol_contract_ratio` of the
long average. -/
def volContractAt (p : WParams) (s : List WBar) (i : ℕ) : Bool :=
  oLE (volShortAt s i) (oMap2 (fun v r => v * r) (volLongAt p s i) (some p.vol_contract_ratio))

/-- Per-bar inputs of the phase assignment block of `run`. -/
structure PhaseFeat where
  box_ok : Bool := false
  long_trend_up : Bool := false
  long_trend_down : Bool := false
  close : ℚ := 0
  ma_longterm : Option ℚ := none
  down_up_vol_ratio : Option ℚ := none
  vol_contract : Bool := false

/-- The accumulation condition `acc_base`. -/
def accBaseF (p : WParams) (f : PhaseFeat) : Bool :=
  f.box_ok && (f.long_trend_down || oLT (some f.close) f.ma_longterm)
    && oLE f.down_up_vol_ratio (some p.vol_imbalance_threshold)
    && f.vol_contract

/-- The distribution condition `dis_base`. -/
def disBaseF (p : WParams) (f : PhaseFeat) : Bool :=
  f.box_ok && (f.long_trend_up || oGT (some f.close) f.ma_longterm)
    && oGE f.down_up_vol_ratio (some p.vol_imbalance_threshold)

/-- Phase assignment: the sequence of `df.loc` writes of `run`, in source
order, each overwriting the previous value on its mask. -/
def phaseOfFeat (p : WParams) (f : PhaseFeat) : Phase :=
  let p0 := Phase.NONE
  let p1 := if accBaseF p f then Phase.ACCUMULATION else p0
  let p2 := if disBaseF p f then Phase.DISTRIBUTION else p1
  let p3 := if f.long_trend_up && !f.box_ok then Phase.TREND_UP else p2
  if f.long_trend_down && !f.box_ok then Phase.TREND_DOWN else p3

/-- Phase inputs extracted from the series at row `i`. -/
def phaseFeatAt (p : WParams) (s : List WBar) (i : ℕ) : PhaseFeat :=
  { box_ok := boxOkAt p s i
    long_trend_up := longTrendUpAt p s i
    long_trend_down := longTrendDownAt p s i
    close := closeAt s i
    ma_longterm := maLongtermAt p s i
    down_up_vol_ratio := downUpVolRatioAt p s i
    vol_contract := volContractAt p s i }

/-- The `wyckoff_phase` column at row `i`. -/
def phaseAt (p : WParams) (s : List WBar) (i : ℕ) : Phase :=
  phaseOfFeat p (phaseFeatAt p s i)

/-- Short MA of the previous row (`shift(1)`). -/
def maShortPrevAt (p : WParams) (s : List WBar) (i : ℕ) : Option ℚ :=
  if 1 ≤ i then maShortAt p s (i-1) else none

/-- Long MA of the previous row. -/
def maLongPrevAt (p : WParams) (s : List WBar) (i : ℕ) : Option ℚ :=
  if 1 ≤ i then maLongAt p s (i-1) else none

/-- Trend bullish: short MA above long MA. -/
def trendBullishAt (p : WParams) (s : List WBar) (i : ℕ) : Bool :=
  oGT (maShortAt p s i) (maLongAt p s i)

/-- Golden cross on this row. -/
def goldenCrossAt (p : WParams) (s : List WBar) (i : ℕ) : Bool :=
  oGT (maShortAt p s i) (maLongAt p s i)
    && oLE (maShortPrevAt p s i) (maLongPrevAt p s i)

/-- The `atr14` column as `run` reads it: `df.get(..., 0.0).fillna(0.0)`. -/
def atrEffAt (s : List WBar) (i : ℕ) : ℚ :=
  ((s.get? i).bind (fun b => b.atr14)).getD 0

/-- Death cross with the 0.2-ATR buffer. -/
def deathCrossAt (p : WParams) (s : List WBar) (i : ℕ) : Bool :=
  oLT (maShortAt p s i) (maLongAt p s i)
    && oGE (maShortPrevAt p s i) (maLongPrevAt p s i)
    && oLT (maShortAt p s i)
        (oMap2 (fun m a => m - (1/5) * a) (maLongAt p s i) (some (atrEffAt s i)))

/-- The externally supplied EFI column at row `i`. -/
def efiAt (s : List WBar) (i : ℕ) : Option ℚ :=
  (s.get? i).bind (fun b => b.efi)

/-- The EFI z-score column at row `i`. -/
def efiZAt (s : List WBar) (i : ℕ) : Option ℚ :=
  (s.get? i).bind (fun b => b.efi_z)

/-- EFI value of the previous row. -/
def efiPrevAt (s : List WBar) (i : ℕ) : Option ℚ :=
  if 1 ≤ i then efiAt s (i-1) else none

/-- EFI weakness: z-score above 1 and EFI falling. -/
def efiWeaknessAt (s : List WBar) (i : ℕ) : Bool :=
  oGT (efiZAt s i) (some 1) && oLT (efiAt s i) (efiPrevAt s i)

/-- EFI strength: z-score below -1 and EFI rising. -/
def efiStrengthAt (s : List WBar) (i : ℕ) : Bool :=
  oLT (efiZAt s i) (some (-1)) && oGT (efiAt s i) (efiPrevAt s i)

/-- The bearish-divergence column at row `i`. -/
def bearishDivAt (s : List WBar) (i : ℕ) : Bool :=
  ((s.get? i).map (fun b => b.bearish_divergence)).getD false

/-- The bullish-divergence column as a list. -/
def bullDivList (s : List WBar) : List Bool :=
  s.map (fun b => b.bullish_divergence)

/-- The EFI-strength column as a list. -/
def efiStrengthList (s : List WBar) : List Bool :=
  (List.range s.length).map (efiStrengthAt s)

/-- A bullish divergence occurred within the confirmation window. -/
def hasRecentBullDivAt (p : WParams) (s : List WBar) (i : ℕ) : Bool :=
  rollingAny p.confirmation_window (bullDivList s) i

/-- An EFI strength occurred within the confirmation window. -/
def hasRecentEfiStrengthAt (p : WParams) (s : List WBar) (i : ℕ) : Bool :=
  rollingAny p.confirmation_window (efiStrengthList s) i

/-- Confirmed bottom: recent bullish divergence or recent EFI strength. -/
def isConfirmedBottomAt (p : WParams) (s : List WBar) (i : ℕ) : Bool :=
  hasRecentBullDivAt p s i || hasRecentEfiStrengthAt p s i

/-- Volume spike: volume at least `vol_spike_mult` times the long average. -/
def volSpikeAt (p : WParams) (s : List WBar) (i : ℕ) : Bool :=
  oGE (some (volumeAt s i))
    (oMap2 (fun v m => v * m) (volLongAt p s i) (some p.vol_spike_mult))

/-- High breaks the box top by `breakout_pct`. -/
def breakUpAt (p : WParams) (s : List WBar) (i : ℕ) : Bool :=
  oGT (some (highAt s i))
    (oMap2 (fun bh m => bh * m) (boxHighAt p s i) (some (1 + p.breakout_pct)))

/-- Low breaks the box bottom by `breakout_pct`. -/
def breakDownAt (p : WParams) (s : List WBar) (i : ℕ) : Bool :=
  oLT (some (lowAt s i))
    (oMap2 (fun bl m => bl * m) (boxLowAt p s i) (some (1 - p.breakout_pct)))

/-- Close reclaims back under the box top. -/
def reclaimUpAt (p : WParams) (s : List WBar) (i : ℕ) : Bool :=
  oLE (some (closeAt s i))
    (oMap2 (fun bh m => bh * m) (boxHighAt p s i) (some (1 + p.reclaim_tol)))

/-- Close reclaims back above the box bottom. -/
def reclaimDownAt (p : WParams) (s : List WBar) (i : ℕ) : Bool :=
  oGE (some (closeAt s i))
    (oMap2 (fun bl m => bl * m) (boxLowAt p s i) (some (1 - p.reclaim_tol)))

/-- SPRING event flag. -/
def eventSpringAt (p : WParams) (s : List WBar) (i : ℕ) : Bool :=
  breakDownAt p s i && reclaimDownAt p s i && volSpikeAt p s i

/-- UPTHRUST event flag. -/
def eventUpthrustAt (p : WParams) (s : List WBar) (i : ℕ) : Bool :=
  breakUpAt p s i && reclaimUpAt p s i && volSpikeAt p s i

/-- SOS event flag. -/
def eventSosAt (p : WParams) (s : List WBar) (i : ℕ) : Bool :=
  breakUpAt p s i && !reclaimUpAt p s i && volSpikeAt p s i

/-- SOW event flag. -/
def eventSowAt (p : WParams) (s : List WBar) (i : ℕ) : Bool :=
  breakDownAt p s i && !reclaimDownAt p s i && volSpikeAt p s i

/-- The `wyckoff_event` column: sequential `df.loc` writes, later masks
overwriting earlier ones. -/
def wyckoffEventAt (p : WParams) (s : List WBar) (i : ℕ) : WEvent :=
  let e0 := WEvent.NONE
  let e1 := if eventSpringAt p s i then WEvent.SPRING else e0
  let e2 := if eventUpthrustAt p s i then WEvent.UPTHRUST else e1
  let e3 := if eventSosAt p s i then WEvent.SOS else e2
  if eventSowAt p s i then WEvent.SOW else e3

/-- Per-bar inputs of the `np.select` action block of `run`. -/
structure ActionFeat where
  death_cross : Bool := false
  wyckoff_phase : Phase := Phase.NONE
  event_sow : Bool := false
  event_upthrust : Bool := false
  event_spring : Bool := false
  event_sos : Bool := false
  golden_cross : Bool := false
  is_confirmed_bottom : Bool := false
  trend_bullish : Bool := false
  bearish_divergence : Bool := false
  efi_weakness : Bool := false

/-- The `signal_reduce` column: bearish divergence or EFI weakness. -/
def signalReduceF (f : ActionFeat) : Bool :=
  f.bearish_divergence || f.efi_weakness

/-- The action `np.select`: first true condition wins, in source order. -/
def actionOfFeat (f : ActionFeat) : WAction :=
  if f.death_cross then WAction.SELL
  else if f.wyckoff_phase = Phase.DISTRIBUTION && f.event_sow then WAction.SELL
  else if f.wyckoff_phase = Phase.DISTRIBUTION && f.event_upthrust then WAction.REDUCE
  else if f.wyckoff_phase = Phase.ACCUMULATION && f.event_spring then WAction.BUY_STRONG
  else if f.wyckoff_phase = Phase.ACCUMULATION && f.event_sos then WAction.BUY_LIGHT
  else if f.golden_cross && f.is_confirmed_bottom then WAction.BUY_STRONG
  else if f.golden_cross then WAction.BUY_LIGHT
  else if f.trend_bullish && signalReduceF f then WAction.REDUCE
  else WAction.HOLD

/-- Action inputs extracted from the series at row `i`. -/
def actionFeatAt (p : WParams) (s : List WBar) (i : ℕ) : ActionFeat :=
  { death_cross := deathCrossAt p s i
    wyckoff_phase := phaseAt p s i
    event_sow := eventSowAt p s i
    event_upthrust := eventUpthrustAt p s i
    event_spring := eventSpringAt p s i
    event_sos := eventSosAt p s i
    golden_cross := goldenCrossAt p s i
    is_confirmed_bottom := isConfirmedBottomAt p s i
    trend_bullish := trendBullishAt p s i
    bearish_divergence := bearishDivAt s i
    efi_weakness := efiWeaknessAt s i }

/-- The `action` column at row `i`. -/
def actionAt (p : WParams) (s : List WBar) (i : ℕ) : WAction :=
  actionOfFeat (actionFeatAt p s i)

/-- Series-level accumulation condition. -/
def accBaseAt (p : WParams) (s : List WBar) (i : ℕ) : Bool :=
  accBaseF p (phaseFeatAt p s i)

/-- Series-level distribution condition. -/
def disBaseAt (p : WParams) (s : List WBar) (i : ℕ) : Bool :=
  disBaseF p (phaseFeatAt p s i)

/-! Concrete inputs used by witnesses and counterexamples. -/

/-- A bar with a clean golden-cross buy: above the year line, MA5 crossing
over MA20, no gate, no stop. -/
def bBuy : BarData :=
  { close := some 12, ma5 := some 11, ma20 := some 10, ma250 := some 1
    prev_ma5 := some 9, prev_ma20 := some 10 }

/-- The same buy bar inside a DISTRIBUTION phase with a SOW event. -/
def bSow : BarData :=
  { bBuy with wyckoff_phase := Phase.DISTRIBUTION, wyckoff_event := WEvent.SOW }

/-- A bar with an MA5/MA20 dead cross and no hard gate. -/
def bDead : BarData :=
  { close := some 9, ma5 := some 9, ma20 := some 10
    prev_ma5 := some 11, prev_ma20 := some 10 }

/-- The dead-cross bar additionally flagged as a one-word limit-up. -/
def bDeadGated : BarData :=
  { bDead with one_word_limit_up := true }

/-- A bar with every column missing. -/
def bEmpty : BarData := {}

/-- Quality inputs with every factor column missing. -/
def qNeutral : QualityInputs := {}

/-- Quality inputs whose only live factor is a 20 percent MA20 bias, which
drives the quality score to -5. -/
def qBad : QualityInputs := { ma20_bias := some (1/5) }

/-- Quality inputs that push the quality score to exactly +10. -/
def qTen : QualityInputs :=
  { rotation_phase := some "leader", chip_score := some 1
    wyckoff_score := some 2, engulf_score := some 5
    rsi14 := some 50, rps_50 := some 95 }

/-- Quality inputs in a leading sector. -/
def qRotLeader : QualityInputs := { rotation_phase := some "leader" }

/-- Quality inputs with a trailing 5-bar index return of exactly -2 percent. -/
def qIdx : QualityInputs := { index_ret_5d := some (-(1/50)) }

/-- Phase features on which the accumulation and the distribution conditions
hold simultaneously: boxed market, declining long MA with the close above it,
down/up volume ratio exactly at the 1.2 threshold, contracting volume. -/
def fC4 : PhaseFeat :=
  { box_ok := true, long_trend_up := false, long_trend_down := true
    close := 10, ma_longterm := some 5, down_up_vol_ratio := some (6/5)
    vol_contract := true }

/-- A featureless action row whose only live flag is the death cross. -/
def fDeath : ActionFeat := { death_cross := true }

/-- A flat bar at the given close. -/
def mkBar (c : ℚ) : WBar :=
  { open_ := c, high := c, low := c, close := c, volume := 100 }

/-- A 21-bar series, flat at 10 and dropping to 5 on the last bar, which
produces an MA5/MA20 dead cross on bar 20. -/
def s21 : List WBar :=
  [mkBar 10, mkBar 10, mkBar 10, mkBar 10, mkBar 10, mkBar 10, mkBar 10,
   mkBar 10, mkBar 10, mkBar 10, mkBar 10, mkBar 10, mkBar 10, mkBar 10,
   mkBar 10, mkBar 10, mkBar 10, mkBar 10, mkBar 10, mkBar 10, mkBar 5]

/-- An all-zero bar. -/
def zeroBar : WBar := {}

/-- 220 all-zero bars: every guarded denominator of `run` is zero here. -/
def zeroSeries : List WBar := List.replicate 220 zeroBar

/-! General helper lemmas shared between claims. -/

theorem listPrefixTest_app (l m : List Char) : listPrefixTest l (l ++ m) = true := by
  induction l with
  | nil => rfl
  | cons a as ih => simp [listPrefixTest, ih]

theorem listContains_of_test (needle hay : List Char)
    (h : listPrefixTest needle hay = true) : listContains needle hay = true := by
  cases hay with
  | nil => simpa [listContains] using h
  | cons c cs => simp [listContains, h]

theorem strContains_app (s t : String) : strContains (s ++ t) s = true := by
  unfold strContains
  rw [String.data_append]
  exact listContains_of_test _ _ (listPrefixTest_app _ _)

theorem strContains_self (s : String) : strContains s s = true := by
  have h := strContains_app s ""
  simpa using h

theorem safeDiv_denom_zero (a : Option ℚ) : safeDiv a (some 0) = none := by
  cases a <;> simp [safeDiv]

theorem clipQ_nonneg (x : ℚ) : 0 ≤ clipQ x 0 (4/5) :=
  le_min (le_max_right _ _) (by norm_num)

theorem clipQ_le (x : ℚ) : clipQ x 0 (4/5) ≤ 4/5 := min_le_right _ _

theorem envGate_none : envGate none = false := by decide

theorem dynamic_thresh_some (p : TrendParams) (q : QualityInputs) (v : ℚ)
    (hv : q.index_ret_5d = some v) :
    dynamic_thresh p q = if v < -(1/50) then 0 else p.quality_stop_threshold := by
  unfold dynamic_thresh
  rw [hv]

theorem dynamic_thresh_none (p : TrendParams) (q : QualityInputs)
    (hv : q.index_ret_5d = none) :
    dynamic_thresh p q = p.quality_stop_threshold := by
  unfold dynamic_thresh
  rw [hv]

/-! Claim theorems. -/

/-- C1: for every evaluated bar, `final_cap` lies in [0, 0.8]; it is exactly 0
whenever the final signal is neither BUY nor BUY_CONFIRM, and equals
`clip(0.5 + quality_score*0.1, 0.0, 0.8)` whenever the final signal is BUY or
BUY_CONFIRM. -/
theorem C1_final_cap_bounds (p : TrendParams) (b : BarData) (q : QualityInputs) :
    0 ≤ final_cap p b q ∧ final_cap p b q ≤ 4/5
      ∧ ((finalSignal p b q ≠ Signal.BUY ∧ finalSignal p b q ≠ Signal.BUY_CONFIRM) →
          final_cap p b q = 0)
      ∧ ((finalSignal p b q = Signal.BUY ∨ finalSignal p b q = Signal.BUY_CONFIRM) →
          final_cap p b q = clipQ (1/2 + quality_score p b q * (1/10)) 0 (4/5)) := by
  unfold final_cap
  by_cases h : finalSignal p b q = Signal.BUY ∨ finalSignal p b q = Signal.BUY_CONFIRM
  · rw [if_pos h]
    refine ⟨clipQ_nonneg _, clipQ_le _, ?_, fun _ => rfl⟩
    intro hc
    rcases h with h | h
    · exact absurd h hc.1
    · exact absurd h hc.2
  · rw [if_neg h]
    exact ⟨le_refl 0, by norm_num, fun _ => rfl, fun hc => absurd hc h⟩

/-- Witness for C1 at a concrete BUY bar. -/
theorem C1_final_cap_bounds_witness :
    final_cap defaultParams bBuy qNeutral
      = clipQ (1/2 + quality_score defaultParams bBuy qNeutral * (1/10)) 0 (4/5) := by
  have hsig : finalSignal defaultParams bBuy qNeutral = Signal.BUY := by
    norm_num [finalSignal, mask_stop, signalAfterSow, is_sow, initSignal, hard_gate,
      envGate_none, base_sell, dead_cross, stagnation, hard_stop, trailing_stop,
      base_reduce, base_buy, buy_cross, buy_pullback, trend_ok, cross_up, atr_ok,
      dist_to_ma20, vol_vsa_ok, oLT, oLE, oGT, oGE, oMap2, bBuy, qNeutral,
      defaultParams, dynamic_thresh, quality_score, nonBoardScore, board_factor,
      chip_factor, rs_factor, resilient_bonus, dist_factor, acc_factor,
      trend_up_factor, rsi_factor, rps_factor, is_low_base, is_improving,
      acceleration_bonus, chase_penalty]
    all_goals simp
    all_goals norm_num
  exact (C1_final_cap_bounds defaultParams bBuy qNeutral).2.2.2 (Or.inl hsig)

/-- C3 (amended): the sector-rotation term enters the quality score with an
extra factor 2, contributing +4 for leader/leading and +2 for improving. -/
theorem C3_board_contribution (p : TrendParams) (b : BarData) (q : QualityInputs) :
    quality_score p b q
      = nonBoardScore p b q
        + (if q.rotation_phase.getD "neutral" = "leader"
              ∨ q.rotation_phase.getD "neutral" = "leading" then (4 : ℚ)
           else if q.rotation_phase.getD "neutral" = "improving" then 2 else 0) := by
  unfold quality_score board_factor
  by_cases h1 : q.rotation_phase.getD "neutral" = "leader"
      ∨ q.rotation_phase.getD "neutral" = "leading"
  · rw [if_pos h1]
    have hb : (q.rotation_phase.getD "neutral" = "leader"
        || q.rotation_phase.getD "neutral" = "leading") = true := by
      simpa using h1
    rw [if_pos hb]
    ring
  · rw [if_neg h1]
    have hb : (q.rotation_phase.getD "neutral" = "leader"
        || q.rotation_phase.getD "neutral" = "leading") = false := by
      simpa using h1
    rw [if_neg (by simp [hb])]
    by_cases h2 : q.rotation_phase.getD "neutral" = "improving"
    · rw [if_pos h2, if_pos (by simpa using h2)]
      ring
    · rw [if_neg h2, if_neg (by simpa using h2)]
      ring

/-- Counterexample to C3 as stated: switching the rotation phase from
neutral to leader moves the quality score by 4, not by 2. -/
theorem C3_board_counterexample :
    quality_score defaultParams bEmpty qRotLeader
        - quality_score defaultParams bEmpty qNeutral = 4
      ∧ (4 : ℚ) ≠ 2 := by
  constructor
  · norm_num [quality_score, nonBoardScore, board_factor, chip_factor, rs_factor,
      resilient_bonus, dist_factor, acc_factor, trend_up_factor, rsi_factor,
      rps_factor, is_low_base, is_improving, acceleration_bonus, chase_penalty,
      oLT, oGT, bEmpty, qRotLeader, qNeutral, defaultParams]
    all_goals simp
  · norm_num

/-- C6: DISTRIBUTION phase with a SOW event forces the final combined signal
to SELL, whatever the prior signal was. -/
theorem C6_sow_forces_sell (p : TrendParams) (b : BarData) (q : QualityInputs)
    (h1 : b.wyckoff_phase = Phase.DISTRIBUTION) (h2 : b.wyckoff_event = WEvent.SOW) :
    finalSignal p b q = Signal.SELL := by
  have hs : is_sow b = true := by simp [is_sow, h1, h2]
  simp [finalSignal, mask_stop, signalAfterSow, hs]

/-- Witness for C6 at a concrete bar whose base signal is BUY. -/
theorem C6_sow_forces_sell_witness :
    finalSignal defaultParams bSow qNeutral = Signal.SELL :=
  C6_sow_forces_sell defaultParams bSow qNeutral rfl rfl

/-- C7 (amended): the quality threshold is 0 when the trailing 5-bar index
return is strictly below -2 percent and the configured default (-3 by
default) otherwise, including at exactly -2 percent; a bar whose signal
after the SOW override is BUY with quality at or below the active threshold
is downgraded to WAIT with the marker appended to its reason. -/
theorem C7_dynamic_quality_gate (p : TrendParams) (b : BarData) (q : QualityInputs) :
    (∀ v : ℚ, q.index_ret_5d = some v → v < -(1/50) → dynamic_thresh p q = 0)
      ∧ (∀ v : ℚ, q.index_ret_5d = some v → -(1/50) ≤ v →
          dynamic_thresh p q = p.quality_stop_threshold)
      ∧ (q.index_ret_5d = none → dynamic_thresh p q = p.quality_stop_threshold)
      ∧ defaultParams.quality_stop_threshold = -3
      ∧ (signalAfterSow p b = Signal.BUY →
          quality_score p b q ≤ dynamic_thresh p q →
          finalSignal p b q = Signal.WAIT
            ∧ finalReason p b q = reasonAfterSow p b ++ "|质量分过低(环境自适应)") := by
  refine ⟨?_, ?_, ?_, rfl, ?_⟩
  · intro v hv hlt
    rw [dynamic_thresh_some p q v hv, if_pos hlt]
  · intro v hv hge
    rw [dynamic_thresh_some p q v hv, if_neg (not_lt.mpr hge)]
  · intro hv
    exact dynamic_thresh_none p q hv
  · intro hb hq
    have hm : mask_stop p b q = true := by
      simp [mask_stop, hb, hq]
    exact ⟨by simp [finalSignal, hm], by simp [finalReason, hm]⟩

/-- Witness for C7: a concrete BUY bar with quality -5 under the default
threshold is downgraded to WAIT with the appended marker. -/
theorem C7_dynamic_quality_gate_witness :
    finalSignal defaultParams bBuy qBad = Signal.WAIT
      ∧ finalReason defaultParams bBuy qBad
          = reasonAfterSow defaultParams bBuy ++ "|质量分过低(环境自适应)" := by
  refine (C7_dynamic_quality_gate defaultParams bBuy qBad).2.2.2.2 ?_ ?_
  · norm_num [signalAfterSow, is_sow, initSignal, hard_gate, envGate_none, base_sell,
      dead_cross, stagnation, hard_stop, trailing_stop, base_reduce, base_buy,
      buy_cross, buy_pullback, trend_ok, cross_up, atr_ok, dist_to_ma20, vol_vsa_ok,
      oLT, oLE, oGT, oGE, oMap2, bBuy, defaultParams]
    all_goals simp
  · norm_num [quality_score, nonBoardScore, board_factor, chip_factor, rs_factor,
      resilient_bonus, dist_factor, acc_factor, trend_up_factor, rsi_factor,
      rps_factor, is_low_base, is_improving, acceleration_bonus, chase_penalty,
      dynamic_thresh, oLT, oGT, bBuy, qBad, defaultParams]
    all_goals simp

/-- Counterexample to C7 as stated: at a trailing 5-bar index return of
exactly -2 percent the code keeps the default threshold -3, while the claim
demands 0. -/
theorem C7_threshold_boundary_counterexample :
    qIdx.index_ret_5d = some (-(1/50))
      ∧ (-(1/50) : ℚ) ≤ -(1/50)
      ∧ dynamic_thresh defaultParams qIdx = -3
      ∧ (-3 : ℚ) ≠ 0 := by
  refine ⟨rfl, le_refl _, ?_, by norm_num⟩
  norm_num [dynamic_thresh, qIdx, defaultParams]

/-- C9 (amended): the quality-gate append always preserves the pre-gate
reason as a substring, and on every bar where the SOW hard override does not
fire, the reason recorded by the base stage survives as a substring of the
final reason.  (The SOW override itself replaces the reason wholesale.) -/
theorem C9_reason_accumulation (p : TrendParams) (b : BarData) (q : QualityInputs) :
    strContains (finalReason p b q) (reasonAfterSow p b) = true
      ∧ (is_sow b = false →
          strContains (finalReason p b q) (reasonBase p b) = true) := by
  have h1 : strContains (finalReason p b q) (reasonAfterSow p b) = true := by
    unfold finalReason
    by_cases hm : mask_stop p b q = true
    · rw [if_pos hm]
      exact strContains_app _ _
    · rw [if_neg hm]
      exact strContains_self _
  refine ⟨h1, fun hns => ?_⟩
  have h2 : reasonAfterSow p b = reasonBase p b := by
    unfold reasonAfterSow
    rw [hns]
    simp
  rw [← h2]
  exact h1

/-- Witness for C9 on a bar whose reason is the golden-cross text and whose
BUY is downgraded, so the marker is appended to it. -/
theorem C9_reason_accumulation_witness :
    strContains (finalReason defaultParams bBuy qBad) (reasonBase defaultParams bBuy)
      = true :=
  (C9_reason_accumulation defaultParams bBuy qBad).2 (by decide)

/-- Counterexample to C9 as stated: on a golden-cross BUY bar that is also a
DISTRIBUTION/SOW bar, the base-stage reason is recorded and then replaced by
the SOW override, so it is not a substring of the final reason. -/
theorem C9_reason_replaced_counterexample :
    reasonBase defaultParams bSow = "趋势金叉"
      ∧ strContains (finalReason defaultParams bSow qNeutral) "趋势金叉" = false := by
  have hr : reasonBase defaultParams bSow = "趋势金叉" := by
    norm_num [reasonBase, base_buy, buy_cross, buy_pullback, trend_ok, cross_up,
      atr_ok, vol_vsa_ok, dist_to_ma20, oLT, oLE, oGT, oGE, oMap2, bSow, bBuy,
      defaultParams]
  have hf : finalReason defaultParams bSow qNeutral = "Wyckoff派发确认: SOW破位" := by
    norm_num [finalReason, mask_stop, signalAfterSow, is_sow, reasonAfterSow,
      bSow, bBuy]
    all_goals simp
  exact ⟨hr, by rw [hf]; decide⟩

/-- C8 (amended): on every bar with an MA5/MA20 dead cross that is not hard
gated, the final signal is SELL for every choice of quality-scoring inputs;
in particular two evaluations differing only in those inputs agree. -/
theorem C8_dead_cross_sell (p : TrendParams) (b : BarData)
    (hd : dead_cross b = true) (hg : hard_gate p b = false) :
    ∀ q : QualityInputs, finalSignal p b q = Signal.SELL := by
  intro q
  have hsell : base_sell p b = true := by simp [base_sell, hd]
  have hinit : initSignal p b = Signal.SELL := by
    simp [initSignal, hg, hsell]
  have hs2 : signalAfterSow p b = Signal.SELL := by
    unfold signalAfterSow
    by_cases hsow : is_sow b = true
    · rw [if_pos hsow]
    · rw [if_neg hsow]
      exact hinit
  simp [finalSignal, mask_stop, hs2]

/-- Witness for C8 at a concrete dead-cross bar with quality inputs whose
score is +10. -/
theorem C8_dead_cross_sell_witness :
    finalSignal defaultParams bDead qTen = Signal.SELL :=
  C8_dead_cross_sell defaultParams bDead
    (by norm_num [dead_cross, oLT, oGE, bDead])
    (by norm_num [hard_gate, envGate_none, bDead, defaultParams]) qTen

/-- Counterexample to C8 as stated: a dead-cross bar that is also flagged as
a one-word limit-up is hard gated to HOLD, not SELL. -/
theorem C8_dead_cross_gated_counterexample :
    dead_cross bDeadGated = true
      ∧ finalSignal defaultParams bDeadGated qTen = Signal.HOLD
      ∧ Signal.HOLD ≠ Signal.SELL := by
  refine ⟨by norm_num [dead_cross, oLT, oGE, bDeadGated, bDead], ?_, by decide⟩
  norm_num [finalSignal, mask_stop, signalAfterSow, is_sow, initSignal, hard_gate,
    bDeadGated, bDead]
  all_goals simp

/-- C4 (amended): the phase block is a sequence of overwriting assignments,
so on a bar satisfying the ACCUMULATION condition the phase is DISTRIBUTION
whenever the DISTRIBUTION condition holds as well, and ACCUMULATION
otherwise. -/
theorem C4_phase_overlap (p : WParams) (f : PhaseFeat)
    (h : accBaseF p f = true) :
    phaseOfFeat p f
      = if disBaseF p f then Phase.DISTRIBUTION else Phase.ACCUMULATION := by
  have hbox : f.box_ok = true := by
    simp only [accBaseF, Bool.and_eq_true] at h
    exact h.1.1.1
  simp [phaseOfFeat, hbox, h]

/-- Witness for C4 at the concrete overlap bar. -/
theorem C4_phase_overlap_witness :
    phaseOfFeat defaultWParams fC4
      = if disBaseF defaultWParams fC4 then Phase.DISTRIBUTION
        else Phase.ACCUMULATION :=
  C4_phase_overlap defaultWParams fC4
    (by norm_num [accBaseF, oLT, oLE, fC4, defaultWParams])

/-- Counterexample to C4 as stated: with the down/up volume ratio exactly at
the threshold both conditions hold, and the assigned phase is DISTRIBUTION,
not ACCUMULATION. -/
theorem C4_phase_overlap_counterexample :
    accBaseF defaultWParams fC4 = true
      ∧ disBaseF defaultWParams fC4 = true
      ∧ phaseOfFeat defaultWParams fC4 = Phase.DISTRIBUTION
      ∧ Phase.DISTRIBUTION ≠ Phase.ACCUMULATION := by
  refine ⟨?_, ?_, ?_, by decide⟩ <;>
    norm_num [accBaseF, disBaseF, phaseOfFeat, oLT, oLE, oGT, oGE, fC4,
      defaultWParams]

theorem foldMin_replicate (n : ℕ) (a : ℚ) :
    foldMin (List.replicate (n+1) a) = some a := by
  have h : ∀ m : ℕ, (List.replicate m a).foldl min a = a := by
    intro m
    induction m with
    | zero => rfl
    | succ k ih => simp [List.replicate_succ, List.foldl_cons, min_self, ih]
  simp [List.replicate_succ, foldMin, h]

theorem maLongterm_short_none (s : List WBar) (i : ℕ) (h : s.length < 200) :
    maLongtermAt defaultWParams s i = none := by
  have hw : defaultWParams.long_ma_window = 200 := rfl
  unfold maLongtermAt rollingMean
  rw [hw, if_neg]
  rintro ⟨h1, h2⟩
  simp only [closes, List.length_map] at h2
  omega

theorem s21_death : deathCrossAt defaultWParams s21 20 = true := by
  norm_num [deathCrossAt, maShortAt, maLongAt, maShortPrevAt, maLongPrevAt,
    rollingMean, window, closes, s21, mkBar, atrEffAt, oLT, oGE, oMap2,
    defaultWParams, List.sum]

/-- C2 (amended): a series shorter than the 200-bar long-term MA window has
phase NONE on every bar (its long-term trend flags and long-MA comparisons
are all undefined, so no phase condition can fire). -/
theorem C2_short_series_phase_none (s : List WBar) (h : s.length < 200) (i : ℕ) :
    phaseAt defaultWParams s i = Phase.NONE := by
  have hma : ∀ j, maLongtermAt defaultWParams s j = none :=
    fun j => maLongterm_short_none s j h
  have hshift : maLongShiftAt defaultWParams s i = none := by
    unfold maLongShiftAt
    split
    · exact hma _
    · rfl
  have hslope : longMaSlopeAt defaultWParams s i = none := by
    unfold longMaSlopeAt
    rw [hma i, hshift]
    rfl
  have hup : longTrendUpAt defaultWParams s i = false := by
    unfold longTrendUpAt
    rw [hslope]
    rfl
  have hdown : longTrendDownAt defaultWParams s i = false := by
    unfold longTrendDownAt
    rw [hslope]
    rfl
  simp [phaseAt, phaseOfFeat, phaseFeatAt, accBaseF, disBaseF, hup, hdown,
    hma, oLT, oGT]

/-- Witness for C2 (amended) on a concrete 21-bar series. -/
theorem C2_short_series_phase_none_witness :
    phaseAt defaultWParams s21 5 = Phase.NONE :=
  C2_short_series_phase_none s21 (by decide) 5

/-- Counterexample to C2 as stated: the 21-bar series is far shorter than
the largest window, yet its last bar carries an MA5/MA20 dead cross and the
model emits SELL there, not HOLD. -/
theorem C2_short_series_counterexample :
    s21.length < 200
      ∧ actionAt defaultWParams s21 20 = WAction.SELL
      ∧ WAction.SELL ≠ WAction.HOLD := by
  refine ⟨by decide, ?_, by decide⟩
  have hd := s21_death
  simp [actionAt, actionOfFeat, actionFeatAt, hd]

set_option maxRecDepth 8000 in
/-- C5: the action of `run` equals the first true entry of its priority
list; once an earlier entry matches, no later entry can change the result. -/
theorem C5_action_priority (p : WParams) (s : List WBar) (i : ℕ) :
    (deathCrossAt p s i = true → actionAt p s i = WAction.SELL)
      ∧ (deathCrossAt p s i = false →
          (phaseAt p s i = Phase.DISTRIBUTION && eventSowAt p s i) = true →
          actionAt p s i = WAction.SELL)
      ∧ (deathCrossAt p s i = false →
          (phaseAt p s i = Phase.DISTRIBUTION && eventSowAt p s i) = false →
          (phaseAt p s i = Phase.DISTRIBUTION && eventUpthrustAt p s i) = true →
          actionAt p s i = WAction.REDUCE)
      ∧ (deathCrossAt p s i = false →
          (phaseAt p s i = Phase.DISTRIBUTION && eventSowAt p s i) = false →
          (phaseAt p s i = Phase.DISTRIBUTION && eventUpthrustAt p s i) = false →
          (phaseAt p s i = Phase.ACCUMULATION && eventSpringAt p s i) = true →
          actionAt p s i = WAction.BUY_STRONG)
      ∧ (deathCrossAt p s i = false →
          (phaseAt p s i = Phase.DISTRIBUTION && eventSowAt p s i) = false →
          (phaseAt p s i = Phase.DISTRIBUTION && eventUpthrustAt p s i) = false →
          (phaseAt p s i = Phase.ACCUMULATION && eventSpringAt p s i) = false →
          (phaseAt p s i = Phase.ACCUMULATION && eventSosAt p s i) = true →
          actionAt p s i = WAction.BUY_LIGHT)
      ∧ (deathCrossAt p s i = false →
          (phaseAt p s i = Phase.DISTRIBUTION && eventSowAt p s i) = false →
          (phaseAt p s i = Phase.DISTRIBUTION && eventUpthrustAt p s i) = false →
          (phaseAt p s i = Phase.ACCUMULATION && eventSpringAt p s i) = false →
          (phaseAt p s i = Phase.ACCUMULATION && eventSosAt p s i) = false →
          (goldenCrossAt p s i && isConfirmedBottomAt p s i) = true →
          actionAt p s i = WAction.BUY_STRONG)
      ∧ (deathCrossAt p s i = false →
          (phaseAt p s i = Phase.DISTRIBUTION && eventSowAt p s i) = false →
          (phaseAt p s i = Phase.DISTRIBUTION && eventUpthrustAt p s i) = false →
          (phaseAt p s i = Phase.ACCUMULATION && eventSpringAt p s i) = false →
          (phaseAt p s i = Phase.ACCUMULATION && eventSosAt p s i) = false →
          (goldenCrossAt p s i && isConfirmedBottomAt p s i) = false →
          goldenCrossAt p s i = true →
          actionAt p s i = WAction.BUY_LIGHT)
      ∧ (deathCrossAt p s i = false →
          (phaseAt p s i = Phase.DISTRIBUTION && eventSowAt p s i) = false →
          (phaseAt p s i = Phase.DISTRIBUTION && eventUpthrustAt p s i) = false →
          (phaseAt p s i = Phase.ACCUMULATION && eventSpringAt p s i) = false →
          (phaseAt p s i = Phase.ACCUMULATION && eventSosAt p s i) = false →
          goldenCrossAt p s i = false →
          (trendBullishAt p s i && (bearishDivAt s i || efiWeaknessAt s i)) = true →
          actionAt p s i = WAction.REDUCE)
      ∧ (deathCrossAt p s i = false →
          (phaseAt p s i = Phase.DISTRIBUTION && eventSowAt p s i) = false →
          (phaseAt p s i = Phase.DISTRIBUTION && eventUpthrustAt p s i) = false →
          (phaseAt p s i = Phase.ACCUMULATION && eventSpringAt p s i) = false →
          (phaseAt p s i = Phase.ACCUMULATION && eventSosAt p s i) = false →
          goldenCrossAt p s i = false →
          (trendBullishAt p s i && (bearishDivAt s i || efiWeaknessAt s i)) = false →
          actionAt p s i = WAction.HOLD) := by
  refine ⟨?_, ?_, ?_, ?_, ?_, ?_, ?_, ?_, ?_⟩ <;>
    · intros
      simp_all [actionAt, actionOfFeat, actionFeatAt, signalReduceF]
      all_goals (split_ifs <;> simp_all)

/-- Witness for C5: the first priority entry fires on the dead-cross bar of
the concrete 21-bar series. -/
theorem C5_action_priority_witness :
    actionAt defaultWParams s21 20 = WAction.SELL :=
  (C5_action_priority defaultWParams s21 20).1 s21_death

/-- C10: each guarded division (long-term slope, box range percentage,
down/up volume ratio) yields an undefined value on a zero denominator, every
downstream boolean over it is false, and the bar drops out of the
corresponding phase conditions. -/
theorem C10_division_guards (p : WParams) (s : List WBar) (i : ℕ) :
    (maLongShiftAt p s i = some 0 →
        longMaSlopeAt p s i = none
          ∧ longTrendUpAt p s i = false ∧ longTrendDownAt p s i = false)
      ∧ (boxLowAt p s i = some 0 →
          boxRangePctAt p s i = none ∧ boxOkAt p s i = false)
      ∧ (upSumAt p s i = some 0 →
          downUpVolRatioAt p s i = none
            ∧ oLE (downUpVolRatioAt p s i) (some p.vol_imbalance_threshold) = false
            ∧ oGE (downUpVolRatioAt p s i) (some p.vol_imbalance_threshold) = false
            ∧ accBaseAt p s i = false ∧ disBaseAt p s i = false) := by
  refine ⟨?_, ?_, ?_⟩
  · intro h
    have hs : longMaSlopeAt p s i = none := by
      unfold longMaSlopeAt
      rw [h]
      exact safeDiv_denom_zero _
    refine ⟨hs, ?_, ?_⟩
    · unfold longTrendUpAt
      rw [hs]
      rfl
    · unfold longTrendDownAt
      rw [hs]
      rfl
  · intro h
    have hb : boxRangePctAt p s i = none := by
      unfold boxRangePctAt
      rw [h]
      exact safeDiv_denom_zero _
    refine ⟨hb, ?_⟩
    unfold boxOkAt
    rw [hb]
    rfl
  · intro h
    have hr : downUpVolRatioAt p s i = none := by
      unfold downUpVolRatioAt
      rw [h]
      exact safeDiv_denom_zero _
    refine ⟨hr, by rw [hr]; rfl, by rw [hr]; rfl, ?_, ?_⟩
    · unfold accBaseAt accBaseF phaseFeatAt
      simp [hr, oLE]
    · unfold disBaseAt disBaseF phaseFeatAt
      simp [hr, oGE]

/-- Witness for C10 on 220 all-zero bars, where all three guarded
denominators are zero at bar 219. -/
theorem C10_division_guards_witness :
    longMaSlopeAt defaultWParams zeroSeries 219 = none
      ∧ boxOkAt defaultWParams zeroSeries 219 = false
      ∧ downUpVolRatioAt defaultWParams zeroSeries 219 = none := by
  have h := C10_division_guards defaultWParams zeroSeries 219
  have hc : closes zeroSeries = List.replicate 220 0 := by
    unfold closes zeroSeries
    rw [List.map_replicate]
    rfl
  have hl : lows zeroSeries = List.replicate 220 0 := by
    unfold lows zeroSeries
    rw [List.map_replicate]
    rfl
  have hv : vol_up_list zeroSeries = List.replicate 220 0 := by
    unfold vol_up_list zeroSeries
    rw [List.map_replicate]
    norm_num [zeroBar]
  have h1 : maLongShiftAt defaultWParams zeroSeries 219 = some 0 := by
    norm_num [maLongShiftAt, maLongtermAt, rollingMean, window, hc,
      defaultWParams, List.take_replicate, List.drop_replicate,
      List.sum_replicate, smul_zero]
  have h2 : boxLowAt defaultWParams zeroSeries 219 = some 0 := by
    have hwin : window 160 (List.replicate 220 (0:ℚ)) 219 = List.replicate 160 0 := by
      norm_num [window, List.take_replicate, List.drop_replicate]
    have hfold : foldMin (List.replicate 160 (0:ℚ)) = some 0 := foldMin_replicate 159 0
    norm_num [boxLowAt, rollingMin, hl, defaultWParams]
    rw [hwin, hfold]
  have h3 : upSumAt defaultWParams zeroSeries 219 = some 0 := by
    norm_num [upSumAt, rollingSum, window, hv, defaultWParams,
      List.take_replicate, List.drop_replicate, List.sum_replicate, smul_zero]
  exact ⟨(h.1 h1).1, (h.2.1 h2).2, (h.2.2 h3).1⟩

end Ashare
